import Mathlib

/-!
Verification of the flood-guard-ph demo UI client against its
natural-language specification.

The development shallowly embeds the client-side JavaScript of
`demo_ui/assets/js` (chat.js, map.js, project.js, news.js, api-keys.js)
and the application controller (`FloodGuardApp`).  Strings are modelled
as `List Char`, JS numbers holding coordinates as `ℚ`, timestamps as
`ℤ`, and the DOM surfaces (chat log, map markers, details card, news
panel) as explicit fields of record states.  Each event-handler method
becomes a pure state-transition function.
-/

namespace FloodGuard

/-- JS truthiness of an optional numeric value: `undefined`/`null` and `0`
are falsy, every other number is truthy. -/
def truthyNum : Option ℚ → Bool
  | none => false
  | some x => x != 0

/-- JS `a || b` on optional numeric values: yields `a` when `a` is truthy,
otherwise `b` (even when `b` is itself falsy). -/
def jsOrNum (a b : Option ℚ) : Option ℚ :=
  if truthyNum a then a else b

/-- JS truthiness of an optional string: `null` and the empty string are
falsy. -/
def truthyStr : Option (List Char) → Bool
  | none => false
  | some s => !s.isEmpty

/-- Whitespace characters removed by JS `String.prototype.trim`. -/
def isJsWhitespace (c : Char) : Bool :=
  c = ' ' || c = '\t' || c = '\n' || c = '\r' || c = '\x0b' || c = '\x0c'

/-- JS `String.prototype.trim`: strip whitespace from both ends. -/
def trimStr (s : List Char) : List Char :=
  ((s.dropWhile isJsWhitespace).reverse.dropWhile isJsWhitespace).reverse

/-! ## Markdown formatting (`ChatManager.parseMarkdown`, chat.js 177–197) -/

/-- Replace every occurrence of the character `target` by the string `rep`
(the JS `String.replace` with a global single-character pattern). -/
def replaceChar (target : Char) (rep : List Char) : List Char → List Char
  | [] => []
  | c :: rest => (if c = target then rep else [c]) ++ replaceChar target rep rest

/-- HTML escaping performed first in `parseMarkdown`: the chained
`.replace(/&/g,'&amp;').replace(/</g,'&lt;').replace(/>/g,'&gt;')`. -/
def escapeHtmlText (s : List Char) : List Char :=
  replaceChar '>' "&gt;".toList
    (replaceChar '<' "&lt;".toList
      (replaceChar '&' "&amp;".toList s))

/-- Fuel-indexed scanner for the bold pass
`result.replace(/\*\*([^\*]+?)\*\*/g, '<strong>$1</strong>')`.
A match is `**`, a nonempty run of non-`*` characters, then `**`; on a
failed match the scan advances one character, exactly as the JS regex
engine does.  The fuel only certifies termination: every recursive call
consumes at least one input character, so `fuel = input.length` never
runs out. -/
def boldScanAux : Nat → List Char → List Char
  | 0, s => s
  | _ + 1, [] => []
  | fuel + 1, '*' :: '*' :: rest =>
      match rest.span (· != '*') with
      | (run@(_ :: _), '*' :: '*' :: rest2) =>
          "<strong>".toList ++ run ++ "</strong>".toList ++ boldScanAux fuel rest2
      | _ => '*' :: boldScanAux fuel ('*' :: rest)
  | fuel + 1, c :: rest => c :: boldScanAux fuel rest

/-- The bold pass of `parseMarkdown`. -/
def boldScan (s : List Char) : List Char :=
  boldScanAux s.length s

/-- Fuel-indexed scanner for the italic pass
`result.replace(/\*([^\*]+?)\*/g, '<em>$1</em>')`, run after the bold
pass. -/
def emScanAux : Nat → List Char → List Char
  | 0, s => s
  | _ + 1, [] => []
  | fuel + 1, '*' :: rest =>
      match rest.span (· != '*') with
      | (run@(_ :: _), '*' :: rest2) =>
          "<em>".toList ++ run ++ "</em>".toList ++ emScanAux fuel rest2
      | _ => '*' :: emScanAux fuel rest
  | fuel + 1, c :: rest => c :: emScanAux fuel rest

/-- The italic pass of `parseMarkdown`. -/
def emScan (s : List Char) : List Char :=
  emScanAux s.length s

/-- `ChatManager.parseMarkdown`: HTML-escape, then bold, then italic, then
newline → `<br>`. -/
def parseMarkdown (text : List Char) : List Char :=
  replaceChar '\n' "<br>".toList (emScan (boldScan (escapeHtmlText text)))

/-- Number of (possibly overlapping) occurrences of `pat` in a string. -/
def countOccurrences (pat : List Char) : List Char → Nat
  | [] => 0
  | c :: rest =>
      (if pat.isPrefixOf (c :: rest) then 1 else 0) + countOccurrences pat rest

/-! ## Project records and derived status
(`ProjectRenderer.createProjectCard`, project.js 22–47) -/

/-- Rendered project status; derived at render time, never stored on the
record. -/
inductive Status where
  | ongoing
  | completed
deriving DecidableEq, Repr

/-- One infrastructure project record, with the field-name variants the
source reads through `a || b` fallbacks.  Coordinates are JS numbers
(`ℚ` here, `none` for an absent field); the completion date field is the
parsed timestamp of a nonempty date string, `none` when the field is
absent or empty (falsy). -/
structure Project where
  lat : Option ℚ := none
  latitude : Option ℚ := none
  lon : Option ℚ := none
  longitude : Option ℚ := none
  completion_date_actual : Option ℤ := none
  CompletionDateActual : Option ℤ := none
  description : Option (List Char) := none
  contractor : Option (List Char) := none
deriving DecidableEq, Repr

/-- Effective completion date:
`project.completion_date_actual || project.CompletionDateActual`. -/
def effCompletionDate (p : Project) : Option ℤ :=
  p.completion_date_actual.or p.CompletionDateActual

/-- Status computation inside `ProjectRenderer.createProjectCard`
(project.js 35–46): `completed` when a completion date exists and
`new Date(completionDate) < now`, else `ongoing`; `now` is the render
time. -/
def deriveStatus (p : Project) (now : ℤ) : Status :=
  match effCompletionDate p with
  | none => .ongoing
  | some d => if d < now then .completed else .ongoing

/-! ## Map markers and bounds
(`MapController.addProjectMarker`, map.js 74–111;
`FloodGuardApp.calculateBounds`) -/

/-- Effective latitude read by the map code: `project.lat || project.latitude`. -/
def effLat (p : Project) : Option ℚ :=
  jsOrNum p.lat p.latitude

/-- Effective longitude read by the map code: `project.lon || project.longitude`. -/
def effLon (p : Project) : Option ℚ :=
  jsOrNum p.lon p.longitude

/-- `MapController.addProjectMarker`: `if (!lat || !lon) return;` else a
marker is placed at `[lat, lon]`.  The marker set is modelled as the list
of marker coordinates. -/
def addProjectMarker (markers : List (ℚ × ℚ)) (p : Project) : List (ℚ × ℚ) :=
  if truthyNum (effLat p) && truthyNum (effLon p) then
    markers ++ [((effLat p).getD 0, (effLon p).getD 0)]
  else
    markers

/-- `MapController.updateProjects`: clear the markers, then add one marker
per project with usable coordinates. -/
def updateProjects (projects : List Project) : List (ℚ × ℚ) :=
  projects.foldl addProjectMarker []

/-- The latitude list entering the bounding-box computation:
`projects.map(p => p.lat || p.latitude).filter(Boolean)`. -/
def boundsLats (projects : List Project) : List ℚ :=
  (projects.map effLat).filterMap fun o => if truthyNum o then o else none

/-- The longitude list entering the bounding-box computation:
`projects.map(p => p.lon || p.longitude).filter(Boolean)`. -/
def boundsLons (projects : List Project) : List ℚ :=
  (projects.map effLon).filterMap fun o => if truthyNum o then o else none

/-- `Math.min(...xs)` on a nonempty spread argument list. -/
def listMin : List ℚ → ℚ
  | [] => 0
  | x :: xs => xs.foldl min x

/-- `Math.max(...xs)` on a nonempty spread argument list. -/
def listMax : List ℚ → ℚ
  | [] => 0
  | x :: xs => xs.foldl max x

/-- `FloodGuardApp.calculateBounds`: bounding box
`[[minLon, minLat], [maxLon, maxLat]]` of the truthy coordinates padded
by 0.1, or the fixed default Philippines box when the project list or
either coordinate list is empty. -/
def calculateBounds (projects : List Project) : List (ℚ × ℚ) :=
  if projects.isEmpty then [(121, 12), (122, 13)]
  else
    let lats := boundsLats projects
    let lons := boundsLons projects
    if lats.isEmpty || lons.isEmpty then [(121, 12), (122, 13)]
    else
      [(listMin lons - 1/10, listMin lats - 1/10),
       (listMax lons + 1/10, listMax lats + 1/10)]

/-! ## News panel (`NewsManager`, news.js) and application state
(`FloodGuardApp`, unnamed app controller file) -/

/-- A news article as rendered by `NewsManager.createNewsCard`. -/
structure Article where
  title : List Char := []
  url : List Char := []
deriving DecidableEq, Repr

/-- Visible state of the news panel. -/
inductive NewsPanel where
  | initial
  | empty
  | loading
  | items (articles : List Article)
deriving DecidableEq, Repr

/-- `NewsManager.render`: empty (or absent) article lists show the
explicit empty state, otherwise the article cards. -/
def renderNews (articles : List Article) : NewsPanel :=
  if articles.isEmpty then .empty else .items articles

/-- Server→client protocol events, discriminated by the wire `type`
field.  `Option` payload fields model JS fields that may be absent.
`unknown` stands for any unrecognized `type` discriminant. -/
inductive Event where
  | status (message : List Char)
  | toolTrace (tool query : List Char)
  | projects (data : Option (List Project))
  | mapBounds (bbox : Option (List (ℚ × ℚ)))
  | message (content : List Char) (done : Bool)
  | news (data : Option (List Article))
  | errorEvt (content : List Char)
  | unknown (ty : List Char)
deriving DecidableEq, Repr

/-- Leaflet viewport bounds `[[minLat, minLon], [maxLat, maxLon]]` as set
by `map.fitBounds`. -/
abbrev Viewport := (ℚ × ℚ) × (ℚ × ℚ)

/-- `MapController.fitBounds`: ignore a bbox that is not a two-point
list, otherwise swap each `[lon, lat]` pair into Leaflet `[lat, lon]`
order and fit the map to it. -/
def fitBounds (current : Option Viewport) (bbox : List (ℚ × ℚ)) : Option Viewport :=
  match bbox with
  | [(minLon, minLat), (maxLon, maxLat)] => some ((minLat, minLon), (maxLat, maxLon))
  | _ => current

/-- State owned by `FloodGuardApp` together with the map, details-card
and news surfaces it drives.  `newsFetches` logs the projects for which
`news.fetchForProject` was invoked. -/
structure AppState where
  currentProjects : List Project := []
  markers : List (ℚ × ℚ) := []
  viewport : Option Viewport := none
  renderedProject : Option Project := none
  newsPanel : NewsPanel := .initial
  newsFetches : List Project := []
deriving DecidableEq, Repr

/-- `FloodGuardApp.handleChatMessage`: the switch over forwarded event
types.  `projects` replaces the current set (`message.data || []`),
rebuilds the markers, and for a nonempty set fits the viewport to the
calculated bounds and renders the first project; `map_bounds` fits the
given bbox whenever the field is present; `news` renders the article
list when the field is present; everything else falls through. -/
def handleChatMessage (app : AppState) (e : Event) : AppState :=
  match e with
  | .projects data =>
      let ps := data.getD []
      let app1 := { app with currentProjects := ps, markers := updateProjects ps }
      if ps.isEmpty then app1
      else
        { app1 with
          viewport := fitBounds app1.viewport (calculateBounds ps),
          renderedProject := ps.head? }
  | .mapBounds bbox =>
      match bbox with
      | some b => { app with viewport := fitBounds app.viewport b }
      | none => app
  | .news data =>
      match data with
      | some articles => { app with newsPanel := renderNews articles }
      | none => app
  | _ => app

/-- `FloodGuardApp.handleProjectClick` (marker click): render the project
details, show the news skeleton and fetch related news for the
project. -/
def handleProjectClick (app : AppState) (p : Project) : AppState :=
  { app with
    renderedProject := some p,
    newsPanel := .loading,
    newsFetches := app.newsFetches ++ [p] }

/-! ## Chat client (`ChatManager`, chat.js) -/

/-- Author of a chat bubble. -/
inductive Role where
  | user
  | assistant
deriving DecidableEq, Repr

/-- One rendered chat bubble: the `message-bubble` div with its
`innerHTML` as produced by `parseMarkdown`. -/
structure Bubble where
  role : Role
  content : List Char
deriving DecidableEq, Repr

/-- The two per-session API keys held in `sessionStorage`
(`floodguard_anthropic_key` / `floodguard_openai_key`); `none` models an
absent entry. -/
structure Storage where
  anthropic : Option (List Char) := none
  openai : Option (List Char) := none
deriving DecidableEq, Repr

/-- A client→server wire frame as built by `ChatManager.sendMessage`. -/
structure Frame where
  message : List Char
  session_id : List Char
  anthropic_key : List Char
  openai_key : List Char
deriving DecidableEq, Repr

/-- Actions schedulable with `setTimeout` in `ChatManager`. -/
inductive TimerTask where
  | reconnect
deriving DecidableEq, Repr

/-- State of the `ChatManager` plus the chat DOM surface.  `timers` is
the pending `setTimeout` queue as `(delay in ms, task)` pairs;
`wsGeneration` counts WebSocket objects constructed by `connect()`;
`sentFrames` logs every frame passed to `ws.send`. -/
structure ChatState where
  sessionId : List Char := []
  isConnected : Bool := false
  sendDisabled : Bool := false
  bubbles : List Bubble := []
  typingIndicator : Option (List Char) := none
  inputValue : List Char := []
  storage : Storage := {}
  sentFrames : List Frame := []
  timers : List (Nat × TimerTask) := []
  wsGeneration : Nat := 0
deriving DecidableEq, Repr

/-- `ChatManager.addMessage`: append one fresh message div with the
markdown-formatted content; every call creates a new bubble. -/
def addMessage (chat : ChatState) (role : Role) (content : List Char) : ChatState :=
  { chat with bubbles := chat.bubbles ++ [{ role := role, content := parseMarkdown content }] }

/-- `ChatManager.showError`: an assistant bubble with a warning prefix. -/
def showError (chat : ChatState) (message : List Char) : ChatState :=
  addMessage chat .assistant ("⚠️ ".toList ++ message)

/-- `ChatManager.handleMessage` together with the `onMessage` forwarding
of `projects`, `map_bounds` and `news` to `FloodGuardApp.handleChatMessage`.
The switch has no `default`: a `tool` frame or any unrecognized type
leaves both states untouched. -/
def handleMessage (chat : ChatState) (app : AppState) (e : Event) :
    ChatState × AppState :=
  match e with
  | .status m =>
      ({ chat with typingIndicator := chat.typingIndicator.map fun _ => m }, app)
  | .message content done =>
      let c1 := { chat with typingIndicator := none }
      let c2 := addMessage c1 .assistant content
      (if done then { c2 with sendDisabled := false } else c2, app)
  | .projects _ => (chat, handleChatMessage app e)
  | .mapBounds _ => (chat, handleChatMessage app e)
  | .news _ => (chat, handleChatMessage app e)
  | .errorEvt content =>
      let c1 := { chat with typingIndicator := none }
      ({ showError c1 content with sendDisabled := false }, app)
  | .toolTrace _ _ => (chat, app)
  | .unknown _ => (chat, app)

/-- A raw wire frame as received by `ws.onmessage`: either it decodes to
an event, or `JSON.parse` fails on it. -/
inductive RawFrame where
  | wellFormed (e : Event)
  | malformed (raw : List Char)
deriving DecidableEq, Repr

/-- The `ws.onmessage` handler: `JSON.parse(event.data)` followed by
`handleMessage`.  There is no try/catch, so a malformed frame makes
`JSON.parse` throw and the exception escapes the handler; the `Except`
error carries the offending raw text. -/
def onFrame (chat : ChatState) (app : AppState) (raw : RawFrame) :
    Except (List Char) (ChatState × AppState) :=
  match raw with
  | .wellFormed e => .ok (handleMessage chat app e)
  | .malformed r => .error r

/-- Fold a received event sequence through the message handler, in
receipt order. -/
def processEvents (s : ChatState × AppState) : List Event → ChatState × AppState
  | [] => s
  | e :: es => processEvents (handleMessage s.1 s.2 e) es

/-- The missing-keys prompt shown by `ChatManager.sendMessage`. -/
def apiKeyPrompt : List Char :=
  "⚠️ Please configure your API keys in Settings (gear icon) to use the chat feature.".toList

/-- `ChatManager.sendMessage`: trim the input; bail out silently when the
trimmed message is empty or the socket is not connected; prompt (without
sending) when either API key is missing from sessionStorage; otherwise
add the user bubble, clear the input, disable the send button, send the
frame carrying the session id and both keys, and show the typing
indicator. -/
def sendMessage (chat : ChatState) : ChatState :=
  let message := trimStr chat.inputValue
  if message.isEmpty || !chat.isConnected then chat
  else if !truthyStr chat.storage.anthropic || !truthyStr chat.storage.openai then
    addMessage chat .assistant apiKeyPrompt
  else
    let c1 := addMessage chat .user message
    let c2 := { c1 with inputValue := [] }
    let c3 := { c2 with sendDisabled := true }
    { c3 with
      sentFrames := c3.sentFrames ++
        [{ message := message,
           session_id := chat.sessionId,
           anthropic_key := chat.storage.anthropic.getD [],
           openai_key := chat.storage.openai.getD [] }],
      typingIndicator := some "Thinking...".toList }

/-- `ChatManager.connect`: construct a new WebSocket and install its
callbacks.  The callbacks' effects are the `wsOpen` / `wsClose` /
`wsError` / `wsFrame` events of `stepChat`; synchronously, `connect`
only allocates the socket. -/
def connect (chat : ChatState) : ChatState :=
  { chat with wsGeneration := chat.wsGeneration + 1 }

/-- External stimuli driving the chat client. -/
inductive ChatEvent where
  | wsOpen
  | wsClose
  | wsError
  | wsFrame (raw : RawFrame)
  | clickSend
  | timerFire
deriving DecidableEq, Repr

/-- One step of the client: the WebSocket callbacks of
`ChatManager.connect`, a send-button click, and expiry of the oldest
pending timer.  `onclose` marks the client disconnected, disables the
send button and schedules exactly one reconnect after 3000 ms; a fired
reconnect timer runs `connect`, which never touches the session id.  A
malformed frame throws inside `onmessage` before any state mutation, so
the state is left as it was. -/
def stepChat (s : ChatState × AppState) (e : ChatEvent) : ChatState × AppState :=
  match e with
  | .wsOpen => ({ s.1 with isConnected := true, sendDisabled := false }, s.2)
  | .wsClose =>
      ({ s.1 with
         isConnected := false,
         sendDisabled := true,
         timers := s.1.timers ++ [(3000, .reconnect)] }, s.2)
  | .wsError => (showError s.1 "Connection error. Please refresh the page.".toList, s.2)
  | .wsFrame raw =>
      match onFrame s.1 s.2 raw with
      | .ok s2 => s2
      | .error _ => s
  | .clickSend => (sendMessage s.1, s.2)
  | .timerFire =>
      match s.1.timers with
      | [] => s
      | (_, .reconnect) :: rest => (connect { s.1 with timers := rest }, s.2)

/-! ## API key manager (`APIKeyManager`, api-keys.js) -/

/-- Outcome shown in the settings modal status line by `saveKeys`. -/
inductive SaveOutcome where
  | keysError (msg : List Char)
  | saved
deriving DecidableEq, Repr

/-- `APIKeyManager.saveKeys` (api-keys.js 81–110): trim both inputs;
reject when both are empty; write each key to sessionStorage only when
it is nonempty and does not contain the mask character `•`. -/
def saveKeys (storage : Storage) (anthropicInput openaiInput : List Char) :
    Storage × SaveOutcome :=
  let anthropicKey := trimStr anthropicInput
  let openaiKey := trimStr openaiInput
  if anthropicKey.isEmpty && openaiKey.isEmpty then
    (storage, .keysError "Please enter at least one API key".toList)
  else
    let s1 :=
      if ¬anthropicKey.isEmpty ∧ '•' ∉ anthropicKey then
        { storage with anthropic := some anthropicKey }
      else storage
    let s2 :=
      if ¬openaiKey.isEmpty ∧ '•' ∉ openaiKey then
        { s1 with openai := some openaiKey }
      else s1
    (s2, .saved)

/-- `APIKeyManager.maskKey` (api-keys.js 153–156): keys shorter than 8
characters are shown as-is; otherwise the first 7 characters, twenty
mask characters, and the last 4 characters. -/
def maskKey (key : List Char) : List Char :=
  if key.isEmpty || key.length < 8 then key
  else key.take 7 ++ List.replicate 20 '•' ++ key.drop (key.length - 4)

/-! The claim theorems follow; definitions above, theorems below. -/

/-- Claim C3: the markdown formatter escapes `&`, `<`, `>` before token
scanning and applies bold before italic; `<script>alert(1)</script>`
renders as literal escaped text with no `<` left in the output, and
`**bold** and *italic*` renders with exactly one `<strong>` region and
exactly one `<em>` region. -/
theorem parseMarkdown_escapes_and_formats :
    parseMarkdown "<script>alert(1)</script>".toList
        = "&lt;script&gt;alert(1)&lt;/script&gt;".toList
    ∧ '<' ∉ parseMarkdown "<script>alert(1)</script>".toList
    ∧ parseMarkdown "**bold** and *italic*".toList
        = "<strong>bold</strong> and <em>italic</em>".toList
    ∧ countOccurrences "<strong>".toList (parseMarkdown "**bold** and *italic*".toList) = 1
    ∧ countOccurrences "</strong>".toList (parseMarkdown "**bold** and *italic*".toList) = 1
    ∧ countOccurrences "<em>".toList (parseMarkdown "**bold** and *italic*".toList) = 1
    ∧ countOccurrences "</em>".toList (parseMarkdown "**bold** and *italic*".toList) = 1 := by
  refine ⟨by decide, by decide, by decide, by decide, by decide, by decide, by decide⟩

/-- Claim C8: the rendered status is a function of the project and the
render time: it is `completed` exactly when the (effective) actual
completion date is present and chronologically before now, and `ongoing`
otherwise; in particular the same project with the date fields removed
renders `ongoing`. -/
theorem deriveStatus_completed_iff (p : Project) (now : ℤ) :
    (deriveStatus p now = .completed ↔
        ∃ d, effCompletionDate p = some d ∧ d < now)
    ∧ deriveStatus
        { p with completion_date_actual := none, CompletionDateActual := none }
        now = .ongoing := by
  constructor
  · cases h : effCompletionDate p with
    | none => simp [deriveStatus, h]
    | some d =>
        simp only [deriveStatus, h]
        by_cases hd : d < now
        · simp [hd]
        · simp [hd]
  · simp [deriveStatus, effCompletionDate]

/-- Witness for C8: a project completed at timestamp 0 renders
`completed` at render time 10. -/
theorem deriveStatus_completed_iff_witness :
    deriveStatus { completion_date_actual := some 0 } 10 = .completed :=
  (deriveStatus_completed_iff { completion_date_actual := some 0 } 10).1.mpr
    ⟨0, rfl, by norm_num⟩

/-- Claim C9: a latitude or longitude that is `0` is treated like an
absent coordinate: such a project gets no marker (the marker set is
unchanged), and the falsy coordinate component is excluded from the
lists feeding the bounding-box computation; a project with both
components falsy leaves the computed bounds unchanged altogether. -/
theorem addProjectMarker_falsy_coord (p : Project) (markers : List (ℚ × ℚ))
    (ps : List Project)
    (h : truthyNum (effLat p) = false ∨ truthyNum (effLon p) = false) :
    addProjectMarker markers p = markers
    ∧ (truthyNum (effLat p) = false → boundsLats (ps ++ [p]) = boundsLats ps)
    ∧ (truthyNum (effLon p) = false → boundsLons (ps ++ [p]) = boundsLons ps)
    ∧ (truthyNum (effLat p) = false → truthyNum (effLon p) = false →
        calculateBounds (ps ++ [p]) = calculateBounds ps) := by
  have hmk : addProjectMarker markers p = markers := by
    rcases h with h | h <;> simp [addProjectMarker, h]
  have hlat : truthyNum (effLat p) = false → boundsLats (ps ++ [p]) = boundsLats ps := by
    intro hl
    simp [boundsLats, hl]
  have hlon : truthyNum (effLon p) = false → boundsLons (ps ++ [p]) = boundsLons ps := by
    intro hl
    simp [boundsLons, hl]
  refine ⟨hmk, hlat, hlon, ?_⟩
  intro hl1 hl2
  cases ps with
  | nil =>
      simp [calculateBounds, boundsLats, boundsLons, hl1, hl2]
  | cons q qs =>
      have h1 := hlat hl1
      have h2 := hlon hl2
      rw [List.cons_append] at h1 h2
      simp [calculateBounds, h1, h2]

/-- Witness for C9 at a concrete project whose `lat` field is literally
`0` (and whose fallback `latitude` is absent). -/
theorem addProjectMarker_falsy_coord_witness :
    truthyNum (effLat { lat := some 0, lon := some 121 : Project }) = false
    ∧ addProjectMarker [(14, 121)] { lat := some 0, lon := some 121 : Project }
        = [(14, 121)]
    ∧ boundsLats ([{ lat := some 14, lon := some 120 : Project }]
          ++ [{ lat := some 0, lon := some 121 : Project }])
        = boundsLats [{ lat := some 14, lon := some 120 : Project }] := by
  refine ⟨by decide, ?_, ?_⟩
  · exact (addProjectMarker_falsy_coord
      { lat := some 0, lon := some 121 } [(14, 121)]
      [{ lat := some 14, lon := some 120 }] (Or.inl (by decide))).1
  · exact ((addProjectMarker_falsy_coord
      { lat := some 0, lon := some 121 } [(14, 121)]
      [{ lat := some 14, lon := some 120 }] (Or.inl (by decide))).2.1 (by decide))

/-- Bubble effect of one `Message` fragment: `handleMessage` appends one
fresh assistant bubble, whatever the `done` flag is. -/
theorem handleMessage_message_bubbles (chat : ChatState) (app : AppState)
    (content : List Char) (flag : Bool) :
    (handleMessage chat app (.message content flag)).1.bubbles
      = chat.bubbles ++ [{ role := .assistant, content := parseMarkdown content }] := by
  cases flag <;> simp [handleMessage, addMessage]

/-- Claim C1 (amended): every incoming `Message` fragment creates its own
new assistant bubble; after a run of fragments the chat log extends the
previous bubbles by exactly one bubble per fragment, in receipt order,
each holding that fragment's individually markdown-rendered content (the
fragments are not merged into a single in-progress bubble). -/
theorem message_run_one_bubble_per_fragment (chat : ChatState) (app : AppState)
    (frags : List (List Char × Bool)) :
    (processEvents (chat, app) (frags.map fun f => Event.message f.1 f.2)).1.bubbles
      = chat.bubbles
        ++ frags.map fun f =>
            ({ role := Role.assistant, content := parseMarkdown f.1 } : Bubble) := by
  induction frags generalizing chat app with
  | nil => simp [processEvents]
  | cons f fs ih =>
      simp only [List.map_cons, processEvents]
      have heq : handleMessage chat app (Event.message f.1 f.2)
          = ((handleMessage chat app (Event.message f.1 f.2)).1,
             (handleMessage chat app (Event.message f.1 f.2)).2) := rfl
      rw [heq, ih, handleMessage_message_bubbles]
      simp

/-- Claim C1 (counterexample): the fragments `"Hello "` (`done:false`)
and `"world"` (`done:true`) received from a fresh chat state produce two
separate assistant bubbles; no single in-progress bubble holds their
concatenation. -/
theorem message_fragments_two_bubbles :
    ((processEvents (({} : ChatState), ({} : AppState))
        [Event.message "Hello ".toList false,
         Event.message "world".toList true]).1.bubbles.map Bubble.content
      = ["Hello ".toList, "world".toList])
    ∧ (processEvents (({} : ChatState), ({} : AppState))
        [Event.message "Hello ".toList false,
         Event.message "world".toList true]).1.bubbles.length ≠ 1 := by
  exact ⟨by decide, by decide⟩

/-- Claim C2 (amended): a `MapBounds` event carrying a two-point bbox
always refits the viewport to that bbox, for every current application
state — also when the current project set has coordinates.  The bbox is
applied unconditionally, not only as a no-coordinates fallback. -/
theorem mapBounds_always_applied (app : AppState) (b1 b2 : ℚ × ℚ) :
    (handleChatMessage app (Event.mapBounds (some [b1, b2]))).viewport
      = some ((b1.2, b1.1), (b2.2, b2.1)) := by
  cases b1 with
  | mk x1 y1 => cases b2 with
    | mk x2 y2 => rfl

/-- Claim C2 (counterexample): after a `Projects` event whose project
carries a coordinate pair, a subsequent `MapBounds` event still changes
the viewport — it is not ignored in favour of the project-derived
bounds. -/
theorem mapBounds_changes_viewport_after_projects :
    (handleChatMessage
        (handleChatMessage ({} : AppState)
          (Event.projects (some [{ lat := some 14, lon := some 121 }])))
        (Event.mapBounds (some [(0, 0), (1, 1)]))).viewport
      ≠ (handleChatMessage ({} : AppState)
          (Event.projects (some [{ lat := some 14, lon := some 121 }]))).viewport := by
  have h14 : truthyNum (some 14) = true := by norm_num [truthyNum]
  have h121 : truthyNum (some 121) = true := by norm_num [truthyNum]
  have hlats : boundsLats [{ lat := some 14, lon := some 121 }] = [14] := by
    simp [boundsLats, effLat, jsOrNum, h14]
  have hlons : boundsLons [{ lat := some 14, lon := some 121 }] = [121] := by
    simp [boundsLons, effLon, jsOrNum, h121]
  have hcb : calculateBounds [{ lat := some 14, lon := some 121 }]
      = [(1209/10, 139/10), (1211/10, 141/10)] := by
    rw [calculateBounds]
    simp only [hlats, hlons, List.isEmpty_cons, Bool.false_or]
    norm_num [listMin, listMax]
  have h1 : (handleChatMessage ({} : AppState)
      (Event.projects (some [{ lat := some 14, lon := some 121 }]))).viewport
      = some ((139/10, 1209/10), (141/10, 1211/10)) := by
    simp [handleChatMessage, hcb, fitBounds]
  have h2 : (handleChatMessage
      (handleChatMessage ({} : AppState)
        (Event.projects (some [{ lat := some 14, lon := some 121 }])))
      (Event.mapBounds (some [(0, 0), (1, 1)]))).viewport
      = some ((0, 0), (1, 1)) := by
    simp [handleChatMessage, fitBounds]
  rw [h1, h2]
  simp [Prod.ext_iff]
  norm_num

/-- Claim C4 (amended): a decodable frame with an unrecognized `type` is
ignored with the whole client state unchanged; a malformed frame makes
`JSON.parse` throw inside `ws.onmessage`, so the handler raises instead
of logging and continuing (the exception is not caught by client
code). -/
theorem unknown_ignored_malformed_throws (chat : ChatState) (app : AppState)
    (ty raw : List Char) :
    onFrame chat app (RawFrame.wellFormed (Event.unknown ty)) = .ok (chat, app)
    ∧ onFrame chat app (RawFrame.malformed raw) = .error raw :=
  ⟨rfl, rfl⟩

/-- Claim C4 (counterexample): decoding the malformed frame `"not json"`
raises — the `onmessage` handler propagates the `JSON.parse` exception —
contradicting that applying a received frame never raises. -/
theorem malformed_frame_raises :
    onFrame ({} : ChatState) ({} : AppState) (RawFrame.malformed "not json".toList)
      = .error "not json".toList :=
  rfl

/-- Claim C5 (amended): a `Projects` event replaces `currentProjects`
wholesale (independently of the previous set), recomputes the marker set
from the new set alone, renders the first element's details card when
the set is nonempty, and leaves the news panel and the news-fetch log
untouched; with two `Projects` events, the later one alone determines
`currentProjects`. -/
theorem projects_replace_wholesale (app : AppState)
    (data d1 d2 : Option (List Project)) (p : Project) (rest : List Project) :
    (handleChatMessage app (Event.projects data)).currentProjects = data.getD []
    ∧ (handleChatMessage app (Event.projects data)).markers
        = updateProjects (data.getD [])
    ∧ (handleChatMessage app (Event.projects (some (p :: rest)))).renderedProject
        = some p
    ∧ (handleChatMessage app (Event.projects data)).newsPanel = app.newsPanel
    ∧ (handleChatMessage app (Event.projects data)).newsFetches = app.newsFetches
    ∧ (handleChatMessage (handleChatMessage app (Event.projects d1))
        (Event.projects d2)).currentProjects = d2.getD [] := by
  have key : ∀ (a : AppState) (d : Option (List Project)),
      (handleChatMessage a (Event.projects d)).currentProjects = d.getD []
      ∧ (handleChatMessage a (Event.projects d)).markers = updateProjects (d.getD [])
      ∧ (handleChatMessage a (Event.projects d)).newsPanel = a.newsPanel
      ∧ (handleChatMessage a (Event.projects d)).newsFetches = a.newsFetches := by
    intro a d
    by_cases h : (d.getD []).isEmpty <;>
      simp [handleChatMessage, h]
  refine ⟨(key app data).1, (key app data).2.1, ?_, (key app data).2.2.1,
    (key app data).2.2.2, (key _ d2).1⟩
  simp [handleChatMessage]

/-- Claim C5 (counterexample): a `Projects` event with one project
renders that project's details card, but the news panel stays in its
previous state and no news fetch is issued for the selected project —
the news half of the Details/News recompute is not triggered by a
`Projects` event (a marker click, by contrast, does fetch news). -/
theorem projects_event_no_news_recompute :
    (handleChatMessage ({} : AppState)
        (Event.projects (some [{ lat := some 14, lon := some 121 }]))).renderedProject
      = some { lat := some 14, lon := some 121 }
    ∧ (handleChatMessage ({} : AppState)
        (Event.projects (some [{ lat := some 14, lon := some 121 }]))).newsPanel
      = NewsPanel.initial
    ∧ (handleChatMessage ({} : AppState)
        (Event.projects (some [{ lat := some 14, lon := some 121 }]))).newsFetches
      = []
    ∧ (handleProjectClick ({} : AppState)
        { lat := some 14, lon := some 121 }).newsFetches
      = [{ lat := some 14, lon := some 121 }] := by
  refine ⟨by decide, by decide, by decide, by decide⟩

/-- Claim C6: a send attempt (nonempty trimmed input, connected socket)
with either API key missing from sessionStorage transmits no frame, does
not enter the pending-turn state (the send button stays as it was and no
typing indicator appears), and instead adds the visible
configure-your-keys prompt bubble. -/
theorem sendMessage_missing_keys (chat : ChatState)
    (hmsg : (trimStr chat.inputValue).isEmpty = false)
    (hconn : chat.isConnected = true)
    (hkeys : truthyStr chat.storage.anthropic = false
             ∨ truthyStr chat.storage.openai = false) :
    (sendMessage chat).sentFrames = chat.sentFrames
    ∧ (sendMessage chat).sendDisabled = chat.sendDisabled
    ∧ (sendMessage chat).typingIndicator = chat.typingIndicator
    ∧ (sendMessage chat).bubbles
        = chat.bubbles
          ++ [{ role := .assistant, content := parseMarkdown apiKeyPrompt }] := by
  rcases hkeys with h | h <;>
    simp [sendMessage, hmsg, hconn, h, addMessage]

/-- Witness for C6: a connected client with input `" hi "` and no
Anthropic key stored sends nothing and shows the prompt bubble. -/
theorem sendMessage_missing_keys_witness :
    ((trimStr (" hi ".toList)).isEmpty = false)
    ∧ (sendMessage
        { isConnected := true
          inputValue := " hi ".toList
          storage := { openai := some "k1".toList } }).sentFrames = []
    ∧ (sendMessage
        { isConnected := true
          inputValue := " hi ".toList
          storage := { openai := some "k1".toList } }).sendDisabled = false := by
  refine ⟨by decide, ?_, ?_⟩
  · exact (sendMessage_missing_keys
      { isConnected := true
        inputValue := " hi ".toList
        storage := { openai := some "k1".toList } }
      (by decide) rfl (Or.inl (by decide))).1
  · exact (sendMessage_missing_keys
      { isConnected := true
        inputValue := " hi ".toList
        storage := { openai := some "k1".toList } }
      (by decide) rfl (Or.inl (by decide))).2.1

/-- Received events never touch the session id or the sent-frame log. -/
theorem handleMessage_preserves_session (chat : ChatState) (app : AppState)
    (e : Event) :
    (handleMessage chat app e).1.sessionId = chat.sessionId
    ∧ (handleMessage chat app e).1.sentFrames = chat.sentFrames := by
  cases e with
  | message c flag => cases flag <;> exact ⟨rfl, rfl⟩
  | status m => exact ⟨rfl, rfl⟩
  | toolTrace t q => exact ⟨rfl, rfl⟩
  | projects d => exact ⟨rfl, rfl⟩
  | mapBounds b => exact ⟨rfl, rfl⟩
  | news d => exact ⟨rfl, rfl⟩
  | errorEvt c => exact ⟨rfl, rfl⟩
  | unknown t => exact ⟨rfl, rfl⟩

/-- A `sendMessage` call keeps the session id, and either sends nothing
or appends exactly one frame carrying the state's session id. -/
theorem sendMessage_frames (chat : ChatState) :
    (sendMessage chat).sessionId = chat.sessionId
    ∧ ((sendMessage chat).sentFrames = chat.sentFrames
       ∨ (sendMessage chat).sentFrames
           = chat.sentFrames ++
             [{ message := trimStr chat.inputValue,
                session_id := chat.sessionId,
                anthropic_key := chat.storage.anthropic.getD [],
                openai_key := chat.storage.openai.getD [] }]) := by
  constructor
  · simp only [sendMessage]
    split
    · rfl
    · split
      · rfl
      · rfl
  · simp only [sendMessage]
    split
    · exact Or.inl rfl
    · split
      · exact Or.inl rfl
      · exact Or.inr rfl

/-- Claim C7: no client step ever changes the session id (it is fixed at
initialization); the `onclose` handler schedules exactly one reconnect
timer, with the fixed 3000 ms backoff; and whenever a step sends a
frame, that frame carries the state's unchanged session id. -/
theorem sessionId_stable_single_reconnect (s : ChatState × AppState)
    (e : ChatEvent) :
    (stepChat s e).1.sessionId = s.1.sessionId
    ∧ (stepChat s .wsClose).1.timers = s.1.timers ++ [(3000, TimerTask.reconnect)]
    ∧ ((stepChat s e).1.sentFrames = s.1.sentFrames
       ∨ (stepChat s e).1.sentFrames
           = s.1.sentFrames ++
             [{ message := trimStr s.1.inputValue,
                session_id := s.1.sessionId,
                anthropic_key := s.1.storage.anthropic.getD [],
                openai_key := s.1.storage.openai.getD [] }]) := by
  refine ⟨?_, rfl, ?_⟩
  · cases e with
    | wsOpen => rfl
    | wsClose => rfl
    | wsError => rfl
    | wsFrame raw =>
        cases raw with
        | malformed r => rfl
        | wellFormed ev => exact (handleMessage_preserves_session s.1 s.2 ev).1
    | clickSend => exact (sendMessage_frames s.1).1
    | timerFire =>
        rcases htm : s.1.timers with _ | ⟨⟨d, task⟩, rest⟩
        · simp [stepChat, htm]
        · cases task
          simp [stepChat, htm, connect]
  · cases e with
    | wsOpen => exact Or.inl rfl
    | wsClose => exact Or.inl rfl
    | wsError => exact Or.inl rfl
    | wsFrame raw =>
        cases raw with
        | malformed r => exact Or.inl rfl
        | wellFormed ev =>
            exact Or.inl (handleMessage_preserves_session s.1 s.2 ev).2
    | clickSend => exact (sendMessage_frames s.1).2
    | timerFire =>
        rcases htm : s.1.timers with _ | ⟨⟨d, task⟩, rest⟩
        · exact Or.inl (by simp [stepChat, htm])
        · cases task
          exact Or.inl (by simp [stepChat, htm, connect])

/-- A character failing a predicate survives `dropWhile` by that
predicate whenever it is in the list. -/
theorem mem_dropWhile_of_neg {c : Char} {p : Char → Bool} (hc : p c = false) :
    ∀ {l : List Char}, c ∈ l → c ∈ l.dropWhile p := by
  intro l h
  induction l with
  | nil => cases h
  | cons a l ih =>
      rw [List.dropWhile_cons]
      by_cases ha : p a = true
      · simp only [ha, if_true]
        rcases List.mem_cons.mp h with rfl | h2
        · rw [hc] at ha; cases ha
        · exact ih h2
      · simp only [ha, if_false]
        exact h

/-- Non-whitespace characters survive `trimStr`. -/
theorem mem_trimStr {c : Char} (hc : isJsWhitespace c = false) {l : List Char}
    (h : c ∈ l) : c ∈ trimStr l := by
  unfold trimStr
  rw [List.mem_reverse]
  apply mem_dropWhile_of_neg hc
  rw [List.mem_reverse]
  exact mem_dropWhile_of_neg hc h

/-- Claim C10: `saveKeys` never persists a masked display value: an
input containing the mask character `•` leaves the corresponding
sessionStorage entry unchanged; every `maskKey` output for a key of
length at least 8 contains `•`; consequently, stored keys free of the
mask character stay free of it across any `saveKeys` call. -/
theorem saveKeys_never_stores_mask (storage : Storage) (aIn oIn : List Char) :
    ('•' ∈ aIn → (saveKeys storage aIn oIn).1.anthropic = storage.anthropic)
    ∧ ('•' ∈ oIn → (saveKeys storage aIn oIn).1.openai = storage.openai)
    ∧ (∀ key : List Char, 8 ≤ key.length → '•' ∈ maskKey key)
    ∧ ((∀ v, storage.anthropic = some v → '•' ∉ v) →
        ∀ v, (saveKeys storage aIn oIn).1.anthropic = some v → '•' ∉ v)
    ∧ ((∀ v, storage.openai = some v → '•' ∉ v) →
        ∀ v, (saveKeys storage aIn oIn).1.openai = some v → '•' ∉ v) := by
  have hwsp : isJsWhitespace '•' = false := by decide
  refine ⟨?_, ?_, ?_, ?_, ?_⟩
  · intro hmem
    have htr : '•' ∈ trimStr aIn := mem_trimStr hwsp hmem
    simp only [saveKeys]
    split
    · rfl
    · split <;>
      · split
        · rename_i hcond
          exact absurd htr hcond.2
        · rfl
  · intro hmem
    have htr : '•' ∈ trimStr oIn := mem_trimStr hwsp hmem
    simp only [saveKeys]
    split
    · rfl
    · split
      · rename_i hcond
        exact absurd htr hcond.2
      · split <;> rfl
  · intro key hk
    have h1 : key.isEmpty = false := by
      cases key with
      | nil => simp at hk
      | cons a l => rfl
    have h2 : ¬ key.length < 8 := not_lt.mpr hk
    simp [maskKey, h1, h2]
  · intro hinv v
    simp only [saveKeys]
    split
    · intro hv; exact hinv v hv
    · split <;>
      · split
        · rename_i hcond
          intro hv
          have hv2 : some (trimStr aIn) = some v := hv
          cases hv2
          exact hcond.2
        · intro hv; exact hinv v hv
  · intro hinv v
    simp only [saveKeys]
    split
    · intro hv; exact hinv v hv
    · split
      · rename_i hcond
        intro hv
        have hv2 : some (trimStr oIn) = some v := hv
        cases hv2
        exact hcond.2
      · split
        · intro hv; exact hinv v hv
        · intro hv; exact hinv v hv

/-- Witness for C10: re-saving the masked display of a stored key leaves
the stored key unchanged, and the mask of an 8+-character key does
contain the mask character. -/
theorem saveKeys_never_stores_mask_witness :
    '•' ∈ maskKey "realkey123456".toList
    ∧ (saveKeys { anthropic := some "realkey123456".toList }
        (maskKey "realkey123456".toList) "newopenai".toList).1.anthropic
      = some "realkey123456".toList := by
  refine ⟨by decide, ?_⟩
  exact (saveKeys_never_stores_mask
    { anthropic := some "realkey123456".toList }
    (maskKey "realkey123456".toList) "newopenai".toList).1 (by decide)

end FloodGuard
